import Mathlib

/-!
Verification of the BOO-shopify storefront widgets.

Shallow embedding of the JavaScript widgets in this repository:
  assets/gif-media-carousel.js  : transform-based infinite-loop carousel
  assets/hers-header.js         : sticky header wrapper plus two scroll-based
                                  carousel iterations (v2 with drag and loop,
                                  v1 the earlier simple one)
  assets/hers-hero.js           : hero headline rotation
  assets/hers-labs-hero.js      : seamless marquee animation loop

Pixel quantities (widths, scroll offsets, translate offsets, times) are
modelled as rationals; slide indices as integers, since the JavaScript code
freely computes out-of-range candidate indices before clamping or wrapping.
DOM class lists are modelled as lists of strings with the classList
add and remove semantics.
-/

/-- DOM classList.add: appends the class when it is not already present. -/
def classAdd {α : Type} [DecidableEq α] (cs : List α) (c : α) : List α :=
  if c ∈ cs then cs else cs ++ [c]

/-- DOM classList.remove: removes every occurrence of the class. -/
def classRemove {α : Type} [DecidableEq α] (cs : List α) (c : α) : List α :=
  cs.filter (fun x => x ≠ c)

namespace GifMediaCarouselTransform

/-!
Model of the transform-based carousel in assets/gif-media-carousel.js
(class GifMediaCarousel). The fields mirror the instance fields set in the
constructor and init; `animated` records whether track.style.transition is
currently the animated easing (true) or the string "none" (false).
-/

structure TState where
  loopEnabled : Bool
  realSlideCount : ℕ
  cloneCount : ℕ
  slideWidth : ℚ
  currentIndex : ℤ
  currentTranslateX : ℚ
  isTransitioning : Bool
  animated : Bool
  deriving Repr, DecidableEq

/-- cloneSlides, acting on the list of slides in the track.
The JS loop `for (let i = realSlideCount - cloneCount; i < realSlideCount; i++)`
inserts each clone with `insertBefore(clone, this.track.firstChild)`, so each
later clone lands in front of the previous one: the prepended block ends up in
reverse order. The second loop appends the first cloneCount slides with
appendChild, in order. -/
def cloneSlides {α : Type} (realSlides : List α) (cloneCount : ℕ) : List α :=
  (realSlides.drop (realSlides.length - cloneCount)).reverse
    ++ realSlides ++ realSlides.take cloneCount

/-- The layout claimed by the spec sentence for the boundary-clone technique:
the last cloneCount slides prepended in order, the first cloneCount appended. -/
def cloneSlidesSpec {α : Type} (realSlides : List α) (cloneCount : ℕ) : List α :=
  realSlides.drop (realSlides.length - cloneCount)
    ++ realSlides ++ realSlides.take cloneCount

/-- updateTransform(index, animate). Clamps (non-loop) or wraps (loop) the
index, computes the translateX offset including the prepended-clone offset and
the two boundary-crossing special cases, and applies it. -/
def updateTransform (s : TState) (index : ℤ) (animate : Bool) : TState :=
  let n : ℤ := s.realSlideCount
  let targetIndex : ℤ :=
    if ¬s.loopEnabled then max 0 (min index (n - 1))
    else if index < 0 then n - 1
    else if index ≥ n then 0
    else index
  let startOffset : ℚ := s.cloneCount * s.slideWidth
  let translateX : ℚ :=
    if s.loopEnabled then
      if s.currentIndex = n - 1 ∧ targetIndex = 0 then
        startOffset + (s.realSlideCount : ℚ) * s.slideWidth
      else if s.currentIndex = 0 ∧ targetIndex = n - 1 then 0
      else startOffset + (targetIndex : ℚ) * s.slideWidth
    else (targetIndex : ℚ) * s.slideWidth
  { s with
    animated := animate
    isTransitioning := animate
    currentTranslateX := translateX
    currentIndex := targetIndex }

/-- handleTransitionEnd: after an animated move, jump without animation back
into the real-slide range when the offset reached the end clones or lies
before the start clones. -/
def handleTransitionEnd (s : TState) : TState :=
  let s0 := { s with isTransitioning := false }
  if ¬s0.loopEnabled then s0
  else
    let startOffset : ℚ := s0.cloneCount * s0.slideWidth
    let endOffset : ℚ := startOffset + (s0.realSlideCount : ℚ) * s0.slideWidth
    if s0.currentTranslateX ≥ endOffset then
      { s0 with animated := false, currentTranslateX := startOffset, currentIndex := 0 }
    else if s0.currentTranslateX < startOffset then
      { s0 with animated := false
                currentTranslateX := startOffset + ((s0.realSlideCount : ℚ) - 1) * s0.slideWidth
                currentIndex := (s0.realSlideCount : ℤ) - 1 }
    else s0

/-- goToSlide(index). -/
def goToSlide (s : TState) (index : ℤ) : TState :=
  if s.isTransitioning then s else updateTransform s index true

/-- goToPrev. -/
def goToPrev (s : TState) : TState :=
  if s.isTransitioning then s else goToSlide s (s.currentIndex - 1)

/-- goToNext. -/
def goToNext (s : TState) : TState :=
  if s.isTransitioning then s else goToSlide s (s.currentIndex + 1)

/-- One tick of the setInterval callback installed by startAutoplay. -/
def autoplayTick (s : TState) : TState :=
  if ¬s.isTransitioning then goToNext s else s

/-- Raw data of a touch gesture, as read by the touchstart and touchend
handlers in setupTouchSupport (pageX, pageY and Date.now() at both ends). -/
structure TouchGesture where
  startX : ℚ
  startY : ℚ
  startTime : ℚ
  endX : ℚ
  endY : ℚ
  endTime : ℚ
  deriving Repr, DecidableEq

/-- The touchend handler of setupTouchSupport, given the local isDragging
flag set by touchstart. Thresholds from the source: SWIPE_THRESHOLD = 50,
SWIPE_VELOCITY_THRESHOLD = 0.3, MAX_VERTICAL_SWIPE = 30; velocity divides by
max(deltaTime, 1). -/
def touchEnd (s : TState) (isDraggingLocal : Bool) (g : TouchGesture) : TState :=
  if ¬isDraggingLocal then s
  else
    let deltaX := g.endX - g.startX
    let deltaY := |g.endY - g.startY|
    let deltaTime := g.endTime - g.startTime
    let distance := |deltaX|
    let velocity := distance / max deltaTime 1
    if deltaY < 30 ∧ (distance > 50 ∨ velocity > 3/10) then
      if deltaX > 0 then goToPrev s else goToNext s
    else updateTransform s s.currentIndex true

/-- The active-slide index invariant for the transform-based variant. -/
def InvT (s : TState) : Prop :=
  0 ≤ s.currentIndex ∧ s.currentIndex ≤ (s.realSlideCount : ℤ) - 1

end GifMediaCarouselTransform

namespace GifMediaCarouselScrollV2

/-!
Model of the later scroll-based carousel in assets/hers-header.js (the second
IIFE, with drag support and loop). scrollTo with smooth behaviour is
asynchronous, so the DOM geometry that findActiveSlideIndex reads inside the
same handler is an input of the operation (a Geometry value), not a function
of the scroll target.
-/

structure V2State where
  loopEnabled : Bool
  slideCount : ℕ
  slideWidth : ℚ
  currentIndex : ℤ
  scrollTarget : ℚ
  isDragging : Bool
  deriving Repr, DecidableEq

/-- DOM geometry visible to findActiveSlideIndex when it runs: the horizontal
center of each slide bounding rect, and the center of the track rect. -/
structure Geometry where
  slideCenters : List ℚ
  trackCenter : ℚ
  deriving Repr, DecidableEq

/-- The forEach loop body of findActiveSlideIndex: walk the slide centers
keeping the index of the closest one. bestDist = none models the initial
closestDistance = Infinity. -/
def findFrom (trackCenter : ℚ) : ℕ → ℕ → Option ℚ → List ℚ → ℕ
  | _, best, _, [] => best
  | idx, best, bestDist, c :: rest =>
      let d := |trackCenter - c|
      match bestDist with
      | none => findFrom trackCenter (idx + 1) idx (some d) rest
      | some bd =>
          if d < bd then findFrom trackCenter (idx + 1) idx (some d) rest
          else findFrom trackCenter (idx + 1) best (some bd) rest

/-- findActiveSlideIndex: the slide whose center is closest to the track
center (first such slide on ties, since the comparison is strict). -/
def findActiveSlideIndex (g : Geometry) : ℕ :=
  findFrom g.trackCenter 0 0 none g.slideCenters

/-- updateActiveSlide: recompute the active index from the geometry and store
it in currentIndex. -/
def updateActiveSlide (s : V2State) (g : Geometry) : V2State :=
  { s with currentIndex := (findActiveSlideIndex g : ℤ) }

/-- scrollToIndex(index): wrap (loop) or reject (non-loop) out-of-range
indices, issue the smooth scroll, set currentIndex, then updateActiveSlide
overwrites it from the live geometry. -/
def scrollToIndex (s : V2State) (index : ℤ) (g : Geometry) : V2State :=
  if s.slideCount = 0 then s
  else
    let n : ℤ := s.slideCount
    if s.loopEnabled then
      let idx := if index < 0 then n - 1 else if index ≥ n then 0 else index
      updateActiveSlide
        { s with scrollTarget := s.slideWidth * (idx : ℚ), currentIndex := idx } g
    else if index < 0 ∨ index ≥ n then s
    else
      updateActiveSlide
        { s with scrollTarget := s.slideWidth * (index : ℚ), currentIndex := index } g

/-- scrollToPrev. -/
def scrollToPrev (s : V2State) (g : Geometry) : V2State :=
  if s.loopEnabled then
    scrollToIndex s
      (if s.currentIndex - 1 < 0 then (s.slideCount : ℤ) - 1 else s.currentIndex - 1) g
  else scrollToIndex s (max 0 (s.currentIndex - 1)) g

/-- scrollToNext. -/
def scrollToNext (s : V2State) (g : Geometry) : V2State :=
  if s.loopEnabled then
    scrollToIndex s ((s.currentIndex + 1) % (s.slideCount : ℤ)) g
  else scrollToIndex s (min ((s.slideCount : ℤ) - 1) (s.currentIndex + 1)) g

/-- The requestAnimationFrame body of handleScroll: skipped while dragging,
otherwise recomputes the active slide from the geometry. -/
def handleScroll (s : V2State) (g : Geometry) : V2State :=
  if s.isDragging then s else updateActiveSlide s g

/-- One tick of the setInterval callback installed by startAutoplay. -/
def autoplayTick (s : V2State) (g : Geometry) : V2State :=
  scrollToNext s g

/-- The active-slide index invariant for the scroll-based v2 variant. -/
def InvV2 (s : V2State) : Prop :=
  0 ≤ s.currentIndex ∧ s.currentIndex ≤ (s.slideCount : ℤ) - 1

end GifMediaCarouselScrollV2

namespace GifMediaCarouselScrollV1

/-!
Model of the earlier scroll-based carousel in assets/hers-header.js (the third
IIFE). Its updateActiveState recomputes currentIndex from the live
track.scrollLeft with Math.round(scrollLeft / slideWidth); since scrollTo with
smooth behaviour is asynchronous, the scrollLeft observed by the handler is an
input of the operation. Mathlib round rounds halves up, exactly like
Math.round.
-/

structure V1State where
  slideCount : ℕ
  slideWidth : ℚ
  currentIndex : ℤ
  scrollTarget : ℚ
  deriving Repr, DecidableEq

/-- updateActiveState, restricted to its currentIndex update (the rest only
toggles dot classes and arrow disabled flags). The round is not clamped. -/
def updateActiveState (s : V1State) (scrollLeft : ℚ) : V1State :=
  { s with currentIndex := round (scrollLeft / s.slideWidth) }

/-- scrollToIndex(index): reject out-of-range indices, issue the smooth
scroll, set currentIndex, then updateActiveState overwrites it from the
scrollLeft observed at that moment. -/
def scrollToIndex (s : V1State) (index : ℤ) (scrollLeft : ℚ) : V1State :=
  if index < 0 ∨ index ≥ (s.slideCount : ℤ) then s
  else
    updateActiveState
      { s with scrollTarget := s.slideWidth * (index : ℚ), currentIndex := index }
      scrollLeft

/-- scrollToPrev. -/
def scrollToPrev (s : V1State) (scrollLeft : ℚ) : V1State :=
  scrollToIndex s (max 0 (s.currentIndex - 1)) scrollLeft

/-- scrollToNext. -/
def scrollToNext (s : V1State) (scrollLeft : ℚ) : V1State :=
  scrollToIndex s (min ((s.slideCount : ℤ) - 1) (s.currentIndex + 1)) scrollLeft

/-- One tick of the setInterval callback installed by startAutoplay: loop back
to the start from the last slide, otherwise advance. -/
def autoplayTick (s : V1State) (scrollLeft : ℚ) : V1State :=
  if s.currentIndex ≥ (s.slideCount : ℤ) - 1 then scrollToIndex s 0 scrollLeft
  else scrollToNext s scrollLeft

/-- The active-slide index invariant for the scroll-based v1 variant. -/
def InvV1 (s : V1State) : Prop :=
  0 ≤ s.currentIndex ∧ s.currentIndex ≤ (s.slideCount : ℤ) - 1

end GifMediaCarouselScrollV1

namespace QuickAdd

/-!
Model of handleQuickAdd. The method body is textually identical in all three
carousel variants (assets/gif-media-carousel.js and both IIFEs of
assets/hers-header.js), up to an unused originalText read in the earliest
copy, so it is embedded once. The network and global environment seen by one
invocation is a QuickAddEnv; the function returns the button state at the end
of the handler together with the list of HTTP requests it issued, in order.
The 2-second success timeout that later clears the success class is outside
the handler and not part of this state.
-/

/-- A button as handleQuickAdd sees it: dataset.variantId (none when the
attribute is missing), the disabled flag, and its class list. -/
structure QuickAddButton where
  variantId : Option String
  disabled : Bool
  classes : List String
  deriving Repr, DecidableEq

/-- The environment of one invocation: outcome of the POST to /cart/add.js
(throws, response.ok, truthiness of data.status), whether the publish and
PUB_SUB_EVENTS globals are defined, and the outcome of the follow-up GET to
/cart.js. -/
structure QuickAddEnv where
  addThrows : Bool
  addOk : Bool
  addStatus : Bool
  publishDefined : Bool
  cartJsThrows : Bool
  deriving Repr, DecidableEq

/-- An HTTP request issued by the handler. -/
inductive CartRequest where
  | postCartAdd (variantId : String) (quantity : ℕ)
  | getCart
  deriving Repr, DecidableEq

/-- JavaScript truthiness test on dataset.variantId: undefined and the empty
string are falsy. -/
def variantFalsy : Option String → Bool
  | none => true
  | some s => s = ""

/-- handleQuickAdd(button). The guard mirrors the JS truthiness test
`if (!variantId) return;`; past the guard the variant id string is the value
of the attribute (getD is never the default there). -/
def handleQuickAdd (b : QuickAddButton) (env : QuickAddEnv) :
    QuickAddButton × List CartRequest :=
  if variantFalsy b.variantId then (b, [])
  else
    let vid := b.variantId.getD ""
    let b1 : QuickAddButton :=
      { b with disabled := true, classes := classAdd b.classes "loading" }
    if env.addThrows then
      ({ b1 with classes := classRemove b1.classes "loading", disabled := false },
       [CartRequest.postCartAdd vid 1])
    else if env.addOk && !env.addStatus then
      let b2 : QuickAddButton :=
        { b1 with classes := classAdd (classRemove b1.classes "loading") "success" }
      if env.publishDefined then
        if env.cartJsThrows then
          ({ b2 with classes := classRemove b2.classes "loading", disabled := false },
           [CartRequest.postCartAdd vid 1, CartRequest.getCart])
        else (b2, [CartRequest.postCartAdd vid 1, CartRequest.getCart])
      else (b2, [CartRequest.postCartAdd vid 1])
    else
      ({ b1 with classes := classRemove b1.classes "loading", disabled := false },
       [CartRequest.postCartAdd vid 1])

end QuickAdd

namespace HersLabsHero

/-!
Model of the marquee animation in assets/hers-labs-hero.js. One iteration of
the loop body in startAnimationLoop subtracts the speed from
currentTranslateX and adds setWidth back when the offset reached -setWidth.
initSeamlessMarquee resets currentTranslateX to 0 before starting the loop.
-/

/-- One frame of the loop in startAnimationLoop. -/
def marqueeStep (setWidth speed x : ℚ) : ℚ :=
  let x1 := x - speed
  if x1 ≤ -setWidth then x1 + setWidth else x1

/-- The offset after n frames, starting from the reset position 0. -/
def marqueeIter (setWidth speed : ℚ) : ℕ → ℚ
  | 0 => 0
  | n + 1 => marqueeStep setWidth speed (marqueeIter setWidth speed n)

end HersLabsHero

namespace HersHero

/-!
Model of the headline rotation in assets/hers-hero.js. activeIdxs is the list
of headline indices currently carrying the class
hers-hero__headline-item--active. One rotation tick (rotateHeadlines,
including the classList.add done by its 100 ms setTimeout) removes the class
from the current index, advances the index modulo the headline count, and
adds the class at the new index.
-/

structure HeroState where
  headlineCount : ℕ
  currentHeadlineIndex : ℕ
  activeIdxs : List ℕ
  deriving Repr, DecidableEq

/-- rotateHeadlines, with the delayed classList.add folded into the tick. -/
def rotateHeadlines (s : HeroState) : HeroState :=
  let afterRemove := classRemove s.activeIdxs s.currentHeadlineIndex
  let newIndex := (s.currentHeadlineIndex + 1) % s.headlineCount
  { s with
    currentHeadlineIndex := newIndex
    activeIdxs := classAdd afterRemove newIndex }

/-- The state after k rotation ticks. -/
def rotateIter (s : HeroState) : ℕ → HeroState
  | 0 => s
  | k + 1 => rotateHeadlines (rotateIter s k)

/-- initHeadlineRotation for a hero with n headline items (reduced motion
off): returns whether the rotation interval is started, and the list of
active headline indices it leaves behind. With fewer than 2 items it returns
before setInterval, activating the single item when there is one. -/
def initHeadlineRotation (n : ℕ) : Bool × List ℕ :=
  if n < 2 then (false, if n = 1 then [0] else [])
  else (true, [0])

end HersHero

namespace HersHeaderWrapper

/-!
Model of the scroll handler installed by HersHeaderWrapper.init in
assets/hers-header.js. The requestAnimationFrame body adds the scrolled class
when the page scroll offset exceeds 10 and removes it otherwise; nothing else
on the wrapper element is touched.
-/

def scrolledClass : String := "hers-header-wrapper--scrolled"

/-- The class list of the wrapper after one processed scroll event with the
given page scroll offset. -/
def handleScroll (classes : List String) (currentScroll : ℚ) : List String :=
  if currentScroll > 10 then classAdd classes scrolledClass
  else classRemove classes scrolledClass

end HersHeaderWrapper

/-! ## Basic classList lemmas -/

theorem mem_classAdd {α : Type} [DecidableEq α] (cs : List α) (c x : α) :
    x ∈ classAdd cs c ↔ x ∈ cs ∨ x = c := by
  unfold classAdd
  by_cases h : c ∈ cs
  · rw [if_pos h]
    constructor
    · exact fun hx => Or.inl hx
    · rintro (hx | rfl)
      · exact hx
      · exact h
  · rw [if_neg h]
    simp only [List.mem_append, List.mem_singleton]

theorem mem_classRemove {α : Type} [DecidableEq α] (cs : List α) (c x : α) :
    x ∈ classRemove cs c ↔ x ∈ cs ∧ x ≠ c := by
  unfold classRemove
  simp

/-! ## C4: the labs-hero marquee offset invariant -/

/-- One frame step keeps the marquee offset inside the interval. -/
theorem marqueeStep_interval (setWidth speed x : ℚ) (_hw : 0 < setWidth)
    (hs0 : 0 ≤ speed) (hs1 : speed ≤ setWidth) (hxl : -setWidth < x) (hxr : x ≤ 0) :
    -setWidth < HersLabsHero.marqueeStep setWidth speed x ∧
      HersLabsHero.marqueeStep setWidth speed x ≤ 0 := by
  simp only [HersLabsHero.marqueeStep]
  split_ifs with h
  · constructor <;> linarith
  · push_neg at h
    constructor <;> linarith

/-- C4: in the labs-hero marquee animation loop, with setWidth > 0 and
0 ≤ speed ≤ setWidth, starting from currentTranslateX = 0, after every frame
step (subtract the speed, then add setWidth back when the value is at most
-setWidth) the offset stays in the half-open interval (-setWidth, 0], so the
marquee wraps seamlessly and never drifts beyond one set width. -/
theorem c4_marquee_offset_invariant (setWidth speed : ℚ)
    (hw : 0 < setWidth) (hs0 : 0 ≤ speed) (hs1 : speed ≤ setWidth) (n : ℕ) :
    -setWidth < HersLabsHero.marqueeIter setWidth speed n ∧
      HersLabsHero.marqueeIter setWidth speed n ≤ 0 := by
  induction n with
  | zero =>
      simp only [HersLabsHero.marqueeIter]
      constructor <;> linarith
  | succ k ih =>
      exact marqueeStep_interval setWidth speed _ hw hs0 hs1 ih.1 ih.2

/-- C4 witness: concrete instance with setWidth = 2, speed = 1/2, five frames. -/
theorem c4_witness :
    (0 : ℚ) < 2 ∧ (0 : ℚ) ≤ 1/2 ∧ (1/2 : ℚ) ≤ 2 ∧
      (-(2 : ℚ) < HersLabsHero.marqueeIter 2 (1/2) 5 ∧
        HersLabsHero.marqueeIter 2 (1/2) 5 ≤ 0) :=
  ⟨by norm_num, by norm_num, by norm_num,
    c4_marquee_offset_invariant 2 (1/2) (by norm_num) (by norm_num) (by norm_num) 5⟩

/-! ## C8: the sticky-header scrolled class -/

/-- C8: after one processed scroll event the wrapper carries the class
hers-header-wrapper--scrolled exactly when the page scroll offset is greater
than 10 pixels, and membership of every other class is unchanged. -/
theorem c8_header_scrolled_class (classes : List String) (sc : ℚ) :
    (HersHeaderWrapper.scrolledClass ∈ HersHeaderWrapper.handleScroll classes sc ↔
        sc > 10) ∧
      (∀ c : String, c ≠ HersHeaderWrapper.scrolledClass →
        (c ∈ HersHeaderWrapper.handleScroll classes sc ↔ c ∈ classes)) := by
  unfold HersHeaderWrapper.handleScroll
  by_cases h : sc > 10
  · rw [if_pos h]
    refine ⟨?_, ?_⟩
    · simp [mem_classAdd, h]
    · intro c hc
      simp [mem_classAdd, hc]
  · rw [if_neg h]
    refine ⟨?_, ?_⟩
    · simp [mem_classRemove, h]
    · intro c hc
      simp [mem_classRemove, hc]

/-- C8 witness: a wrapper with one unrelated class at scroll offset 20. -/
theorem c8_witness :
    (HersHeaderWrapper.scrolledClass ∈
        HersHeaderWrapper.handleScroll ["hers-header"] 20 ↔ (20 : ℚ) > 10) ∧
      ("hers-header" ∈ HersHeaderWrapper.handleScroll ["hers-header"] 20 ↔
        "hers-header" ∈ ["hers-header"]) :=
  ⟨(c8_header_scrolled_class ["hers-header"] 20).1,
    (c8_header_scrolled_class ["hers-header"] 20).2 "hers-header" (by decide)⟩

/-! ## C6: hero headline rotation -/

/-- One rotation tick on a state with exactly the current headline active. -/
theorem rotateHeadlines_single (s : HersHero.HeroState)
    (ha : s.activeIdxs = [s.currentHeadlineIndex]) :
    HersHero.rotateHeadlines s =
      { headlineCount := s.headlineCount
        currentHeadlineIndex := (s.currentHeadlineIndex + 1) % s.headlineCount
        activeIdxs := [(s.currentHeadlineIndex + 1) % s.headlineCount] } := by
  unfold HersHero.rotateHeadlines
  rw [ha]
  have h1 : classRemove [s.currentHeadlineIndex] s.currentHeadlineIndex = [] := by
    simp [classRemove]
  rw [h1]
  simp [classAdd]

/-- Closed form for k rotation ticks from the freshly initialised state. -/
theorem rotateIter_closed (n : ℕ) (h2 : 2 ≤ n) (k : ℕ) :
    HersHero.rotateIter ⟨n, 0, [0]⟩ k = ⟨n, k % n, [k % n]⟩ := by
  induction k with
  | zero =>
      simp only [HersHero.rotateIter]
      have : 0 % n = 0 := Nat.zero_mod n
      rw [this]
  | succ k ih =>
      show HersHero.rotateHeadlines (HersHero.rotateIter ⟨n, 0, [0]⟩ k) = _
      rw [ih, rotateHeadlines_single ⟨n, k % n, [k % n]⟩ rfl]
      have h1 : 1 % n = 1 := Nat.mod_eq_of_lt (by omega)
      have hmod : (k % n + 1) % n = (k + 1) % n := by
        conv_rhs => rw [Nat.add_mod, h1]
      rw [hmod]

/-- C6: with n ≥ 2 headline items, every rotation tick moves the index from i
to (i + 1) mod n, removes the active class from headline i and adds it to
headline (i + 1) mod n, so exactly one headline is active after each tick and
repeated ticks cycle through all headlines in order; with fewer than 2
headlines initHeadlineRotation starts no rotation interval. -/
theorem c6_headline_rotation :
    (∀ n : ℕ, n < 2 → (HersHero.initHeadlineRotation n).1 = false) ∧
      (∀ s : HersHero.HeroState, 2 ≤ s.headlineCount →
        s.activeIdxs = [s.currentHeadlineIndex] →
        (HersHero.rotateHeadlines s).currentHeadlineIndex =
            (s.currentHeadlineIndex + 1) % s.headlineCount ∧
          (HersHero.rotateHeadlines s).activeIdxs =
            [(s.currentHeadlineIndex + 1) % s.headlineCount]) ∧
      (∀ n : ℕ, 2 ≤ n → ∀ k : ℕ,
        (HersHero.rotateIter ⟨n, 0, [0]⟩ k).currentHeadlineIndex = k % n ∧
          (HersHero.rotateIter ⟨n, 0, [0]⟩ k).activeIdxs = [k % n]) := by
  refine ⟨?_, ?_, ?_⟩
  · intro n hn
    unfold HersHero.initHeadlineRotation
    rw [if_pos hn]
  · intro s h2 ha
    rw [rotateHeadlines_single s ha]
    exact ⟨rfl, rfl⟩
  · intro n h2 k
    rw [rotateIter_closed n h2 k]
    exact ⟨rfl, rfl⟩

/-- C6 witness: no timer with one headline; a tick from headline 1 of 3; three
ticks from the initial state of a 2-headline hero. -/
theorem c6_witness :
    (HersHero.initHeadlineRotation 1).1 = false ∧
      ((HersHero.rotateHeadlines ⟨3, 1, [1]⟩).currentHeadlineIndex = 2 ∧
        (HersHero.rotateHeadlines ⟨3, 1, [1]⟩).activeIdxs = [2]) ∧
      ((HersHero.rotateIter ⟨2, 0, [0]⟩ 3).currentHeadlineIndex = 1 ∧
        (HersHero.rotateIter ⟨2, 0, [0]⟩ 3).activeIdxs = [1]) := by
  refine ⟨c6_headline_rotation.1 1 (by norm_num), ?_, ?_⟩
  · simpa using c6_headline_rotation.2.1 ⟨3, 1, [1]⟩ (by norm_num) rfl
  · simpa using c6_headline_rotation.2.2 2 (by norm_num) 3

/-! ## C9: quick add with a missing or empty variant id -/

/-- C9: when the data-variant-id attribute is missing or empty, handleQuickAdd
issues no network request and leaves the button (disabled flag and class
list) unchanged. -/
theorem c9_quick_add_no_variant (b : QuickAdd.QuickAddButton)
    (env : QuickAdd.QuickAddEnv) (h : QuickAdd.variantFalsy b.variantId = true) :
    QuickAdd.handleQuickAdd b env = (b, []) := by
  unfold QuickAdd.handleQuickAdd
  rw [if_pos h]

/-- C9 witness: a button with an empty variant id on a healthy environment. -/
theorem c9_witness :
    QuickAdd.variantFalsy (some "") = true ∧
      QuickAdd.handleQuickAdd
          ⟨some "", false, ["gmc-quick-add-btn"]⟩
          ⟨false, true, false, true, false⟩ =
        (⟨some "", false, ["gmc-quick-add-btn"]⟩, []) :=
  ⟨by decide,
    c9_quick_add_no_variant ⟨some "", false, ["gmc-quick-add-btn"]⟩
      ⟨false, true, false, true, false⟩ (by decide)⟩

/-! ## C10: quick add error path restores the button -/

/-- C10: whenever the quick-add POST fails (the fetch or JSON parsing of
/cart/add.js throws, the response is not ok, or the body carries a status
field), the catch branch removes the loading class, never adds the success
class, and re-enables the button. -/
theorem c10_quick_add_error_path (b : QuickAdd.QuickAddButton)
    (env : QuickAdd.QuickAddEnv)
    (hv : QuickAdd.variantFalsy b.variantId = false)
    (hfail : env.addThrows = true ∨ env.addOk = false ∨ env.addStatus = true) :
    (QuickAdd.handleQuickAdd b env).1.disabled = false ∧
      "loading" ∉ (QuickAdd.handleQuickAdd b env).1.classes ∧
      ("success" ∈ (QuickAdd.handleQuickAdd b env).1.classes ↔
        "success" ∈ b.classes) := by
  unfold QuickAdd.handleQuickAdd
  rw [if_neg (by simp [hv])]
  have hmem : ∀ cs : List String,
      ("loading" ∉ classRemove (classAdd cs "loading") "loading") ∧
        ("success" ∈ classRemove (classAdd cs "loading") "loading" ↔
          "success" ∈ cs) := by
    intro cs
    constructor
    · simp [mem_classRemove]
    · simp [mem_classRemove, mem_classAdd]
  by_cases ht : env.addThrows
  · rw [if_pos ht]
    exact ⟨rfl, (hmem b.classes).1, (hmem b.classes).2⟩
  · rw [if_neg ht]
    have hcond : (env.addOk && !env.addStatus) = false := by
      rcases hfail with h | h | h
      · exact absurd h ht
      · simp [h]
      · simp [h]
    rw [if_neg (by simp [hcond])]
    exact ⟨rfl, (hmem b.classes).1, (hmem b.classes).2⟩

/-- C10 witness: a failing POST (response not ok) on a button that started
with only its base class. -/
theorem c10_witness :
    QuickAdd.variantFalsy (some "40971234") = false ∧
      ((QuickAdd.handleQuickAdd
            ⟨some "40971234", false, ["gmc-quick-add-btn"]⟩
            ⟨false, false, false, true, false⟩).1.disabled = false ∧
        "loading" ∉ (QuickAdd.handleQuickAdd
            ⟨some "40971234", false, ["gmc-quick-add-btn"]⟩
            ⟨false, false, false, true, false⟩).1.classes ∧
        ("success" ∈ (QuickAdd.handleQuickAdd
            ⟨some "40971234", false, ["gmc-quick-add-btn"]⟩
            ⟨false, false, false, true, false⟩).1.classes ↔
          "success" ∈ ["gmc-quick-add-btn"])) :=
  ⟨by decide,
    c10_quick_add_error_path
      ⟨some "40971234", false, ["gmc-quick-add-btn"]⟩
      ⟨false, false, false, true, false⟩ (by decide) (Or.inr (Or.inl rfl))⟩

/-! ## C2: endpoints reached by handleQuickAdd -/

/-- C2 counterexample: on a successful add with the Dawn pub-sub globals
defined, handleQuickAdd also issues a GET to /cart.js, so /cart/add.js is not
the only endpoint called. -/
theorem c2_counterexample :
    QuickAdd.CartRequest.getCart ∈
      (QuickAdd.handleQuickAdd
        ⟨some "123", false, []⟩ ⟨false, true, false, true, false⟩).2 := by decide

/-- C2 (amended): every request issued by handleQuickAdd is either the single
POST to /cart/add.js with body id = variantId, quantity = 1, or the follow-up
GET to /cart.js, the latter only on a successful add with the publish and
PUB_SUB_EVENTS globals defined. -/
theorem c2_requests (b : QuickAdd.QuickAddButton) (env : QuickAdd.QuickAddEnv)
    (r : QuickAdd.CartRequest) (hr : r ∈ (QuickAdd.handleQuickAdd b env).2) :
    (∃ vid, b.variantId = some vid ∧ r = QuickAdd.CartRequest.postCartAdd vid 1) ∨
      (r = QuickAdd.CartRequest.getCart ∧ env.publishDefined = true ∧
        env.addThrows = false ∧ env.addOk = true ∧ env.addStatus = false) := by
  unfold QuickAdd.handleQuickAdd at hr
  by_cases hv : QuickAdd.variantFalsy b.variantId
  · rw [if_pos hv] at hr
    simp at hr
  · rw [if_neg hv] at hr
    have hsome : b.variantId = some (b.variantId.getD "") := by
      cases hb : b.variantId with
      | none => rw [hb] at hv; simp [QuickAdd.variantFalsy] at hv
      | some s => rfl
    by_cases ht : env.addThrows
    · rw [if_pos ht] at hr
      simp only [List.mem_singleton] at hr
      exact Or.inl ⟨b.variantId.getD "", hsome, hr⟩
    · rw [if_neg ht] at hr
      by_cases hok : (env.addOk && !env.addStatus) = true
      · rw [if_pos hok] at hr
        simp only [Bool.and_eq_true, Bool.not_eq_true'] at hok
        by_cases hp : env.publishDefined
        · rw [if_pos hp] at hr
          have hr2 : r = QuickAdd.CartRequest.postCartAdd (b.variantId.getD "") 1 ∨
              r = QuickAdd.CartRequest.getCart := by
            by_cases hc : env.cartJsThrows
            · rw [if_pos hc] at hr
              simpa using hr
            · rw [if_neg hc] at hr
              simpa using hr
          rcases hr2 with hr2 | hr2
          · exact Or.inl ⟨b.variantId.getD "", hsome, hr2⟩
          · exact Or.inr ⟨hr2, hp, Bool.not_eq_true _ ▸ (by simpa using ht), hok.1, hok.2⟩
        · rw [if_neg hp] at hr
          simp only [List.mem_singleton] at hr
          exact Or.inl ⟨b.variantId.getD "", hsome, hr⟩
      · rw [if_neg hok] at hr
        simp only [List.mem_singleton] at hr
        exact Or.inl ⟨b.variantId.getD "", hsome, hr⟩

/-- C2 witness: the POST request of a failing add is of the stated shape. -/
theorem c2_witness :
    (∃ vid, (some "123" : Option String) = some vid ∧
        QuickAdd.CartRequest.postCartAdd "123" 1 =
          QuickAdd.CartRequest.postCartAdd vid 1) ∨
      (QuickAdd.CartRequest.postCartAdd "123" 1 = QuickAdd.CartRequest.getCart ∧
        (true : Bool) = true ∧ (true : Bool) = false ∧ (false : Bool) = true ∧
        (false : Bool) = false) :=
  c2_requests ⟨some "123", false, []⟩ ⟨true, false, false, true, false⟩
    (QuickAdd.CartRequest.postCartAdd "123" 1) (by decide)

/-! ## C1: boundary clones and the loop jump -/

/-- C1 counterexample: with 3 real slides and cloneCount 2, the prepended
clone block comes out reversed (the loop inserts every clone in front of the
previous one), so the track differs from the last-two-slides-in-order layout
the claim describes. -/
theorem c1_counterexample :
    GifMediaCarouselTransform.cloneSlides [0, 1, 2] 2 ≠
      GifMediaCarouselTransform.cloneSlidesSpec [0, 1, 2] 2 := by decide

/-- C1 (amended): cloneSlides prepends the last cloneCount real slides in
reverse order and appends the first cloneCount real slides in order; after an
animated transition, when the translateX offset is at or past the end-clone
boundary cloneCount*slideWidth + realSlideCount*slideWidth the track jumps
without animation to the first real slide (currentIndex 0), and when it is
before the start-clone boundary cloneCount*slideWidth it jumps without
animation to the last real slide (currentIndex realSlideCount - 1). -/
theorem c1_clone_and_jump :
    (∀ (α : Type) (real : List α) (c : ℕ), c ≤ real.length →
      (GifMediaCarouselTransform.cloneSlides real c).take c =
          (real.drop (real.length - c)).reverse ∧
        ((GifMediaCarouselTransform.cloneSlides real c).drop c).take real.length =
          real ∧
        ((GifMediaCarouselTransform.cloneSlides real c).drop c).drop real.length =
          real.take c) ∧
      (∀ s : GifMediaCarouselTransform.TState, s.loopEnabled = true →
        ((s.cloneCount : ℚ) * s.slideWidth + (s.realSlideCount : ℚ) * s.slideWidth ≤
            s.currentTranslateX →
          GifMediaCarouselTransform.handleTransitionEnd s =
            { s with isTransitioning := false, animated := false,
                     currentTranslateX := (s.cloneCount : ℚ) * s.slideWidth,
                     currentIndex := 0 }) ∧
        (s.currentTranslateX < (s.cloneCount : ℚ) * s.slideWidth →
          0 ≤ s.slideWidth →
          GifMediaCarouselTransform.handleTransitionEnd s =
            { s with isTransitioning := false, animated := false,
                     currentTranslateX := (s.cloneCount : ℚ) * s.slideWidth +
                       ((s.realSlideCount : ℚ) - 1) * s.slideWidth,
                     currentIndex := (s.realSlideCount : ℤ) - 1 })) := by
  constructor
  · intro α real c hc
    unfold GifMediaCarouselTransform.cloneSlides
    have hlen : (real.drop (real.length - c)).reverse.length = c := by
      rw [List.length_reverse, List.length_drop]
      omega
    rw [List.append_assoc]
    refine ⟨List.take_left' hlen, ?_, ?_⟩
    · rw [List.drop_left' hlen, List.take_left real (real.take c)]
    · rw [List.drop_left' hlen, List.drop_left real (real.take c)]
  · intro s hloop
    constructor
    · intro hge
      show (if ¬s.loopEnabled then _ else _) = _
      rw [if_neg (by simp [hloop])]
      rw [if_pos (by exact hge)]
    · intro hlt hw
      have hnot : ¬((s.cloneCount : ℚ) * s.slideWidth +
          (s.realSlideCount : ℚ) * s.slideWidth ≤ s.currentTranslateX) := by
        have h1 : (0 : ℚ) ≤ (s.realSlideCount : ℚ) * s.slideWidth :=
          mul_nonneg (by positivity) hw
        linarith
      show (if ¬s.loopEnabled then _ else _) = _
      rw [if_neg (by simp [hloop])]
      rw [if_neg hnot, if_pos (by exact hlt)]

/-- C1 witness: the clone layout for three slides with cloneCount 2, and both
jump branches of handleTransitionEnd on concrete loop states. -/
theorem c1_witness :
    (GifMediaCarouselTransform.cloneSlides ([10, 20, 30] : List ℕ) 2).take 2 =
        (([10, 20, 30] : List ℕ).drop (([10, 20, 30] : List ℕ).length - 2)).reverse ∧
      GifMediaCarouselTransform.handleTransitionEnd ⟨true, 3, 2, 100, 2, 500, true, true⟩ =
        ⟨true, 3, 2, 100, 0, 200, false, false⟩ ∧
      GifMediaCarouselTransform.handleTransitionEnd ⟨true, 3, 2, 100, 0, 100, true, true⟩ =
        ⟨true, 3, 2, 100, 2, 400, false, false⟩ := by
  refine ⟨(c1_clone_and_jump.1 ℕ [10, 20, 30] 2 (by norm_num)).1, ?_, ?_⟩
  · have h := (c1_clone_and_jump.2 ⟨true, 3, 2, 100, 2, 500, true, true⟩ rfl).1
      (by norm_num)
    rw [h]
    norm_num [GifMediaCarouselTransform.TState.mk.injEq]
  · have h := (c1_clone_and_jump.2 ⟨true, 3, 2, 100, 0, 100, true, true⟩ rfl).2
      (by norm_num) (by norm_num)
    rw [h]
    norm_num [GifMediaCarouselTransform.TState.mk.injEq]

/-! ## C3: the active-slide index invariant -/

/-- The closest-slide fold never leaves the index range it walks. -/
theorem findFrom_lt (tc : ℚ) (m : ℕ) :
    ∀ (l : List ℚ) (idx best : ℕ) (bd : Option ℚ),
      best < m → idx + l.length ≤ m →
      GifMediaCarouselScrollV2.findFrom tc idx best bd l < m := by
  intro l
  induction l with
  | nil =>
      intro idx best bd hb _
      simpa [GifMediaCarouselScrollV2.findFrom] using hb
  | cons c rest ih =>
      intro idx best bd hb hlen
      simp only [List.length_cons] at hlen
      have hidx : idx < m := by omega
      have hlen' : idx + 1 + rest.length ≤ m := by omega
      cases bd with
      | none =>
          simpa [GifMediaCarouselScrollV2.findFrom] using
            ih (idx + 1) idx (some |tc - c|) hidx hlen'
      | some d =>
          by_cases hd : |tc - c| < d
          · simpa [GifMediaCarouselScrollV2.findFrom, hd] using
              ih (idx + 1) idx (some |tc - c|) hidx hlen'
          · simpa [GifMediaCarouselScrollV2.findFrom, hd] using
              ih (idx + 1) best (some d) hb hlen'

/-- findActiveSlideIndex stays below the number of slides. -/
theorem findActiveSlideIndex_lt (g : GifMediaCarouselScrollV2.Geometry)
    (h : 0 < g.slideCenters.length) :
    GifMediaCarouselScrollV2.findActiveSlideIndex g < g.slideCenters.length := by
  unfold GifMediaCarouselScrollV2.findActiveSlideIndex
  exact findFrom_lt g.trackCenter _ g.slideCenters 0 0 none h (by omega)

/-- updateTransform always lands in the real-slide index range. -/
theorem invT_updateTransform (s : GifMediaCarouselTransform.TState) (i : ℤ) (a : Bool)
    (hn : 1 ≤ s.realSlideCount) :
    GifMediaCarouselTransform.InvT (GifMediaCarouselTransform.updateTransform s i a) := by
  unfold GifMediaCarouselTransform.updateTransform GifMediaCarouselTransform.InvT
  simp only
  split_ifs <;> constructor <;> omega

/-- handleTransitionEnd preserves the index invariant. -/
theorem invT_handleTransitionEnd (s : GifMediaCarouselTransform.TState)
    (hn : 1 ≤ s.realSlideCount) (hs : GifMediaCarouselTransform.InvT s) :
    GifMediaCarouselTransform.InvT (GifMediaCarouselTransform.handleTransitionEnd s) := by
  obtain ⟨h0, h1⟩ := hs
  unfold GifMediaCarouselTransform.handleTransitionEnd
  simp only
  split_ifs
  · show (0 : ℤ) ≤ 0 ∧ (0 : ℤ) ≤ (s.realSlideCount : ℤ) - 1
    omega
  · show (0 : ℤ) ≤ (s.realSlideCount : ℤ) - 1 ∧
        (s.realSlideCount : ℤ) - 1 ≤ (s.realSlideCount : ℤ) - 1
    omega
  · exact ⟨h0, h1⟩
  · exact ⟨h0, h1⟩

/-- goToSlide preserves the index invariant. -/
theorem invT_goToSlide (s : GifMediaCarouselTransform.TState) (i : ℤ)
    (hn : 1 ≤ s.realSlideCount) (hs : GifMediaCarouselTransform.InvT s) :
    GifMediaCarouselTransform.InvT (GifMediaCarouselTransform.goToSlide s i) := by
  unfold GifMediaCarouselTransform.goToSlide
  split_ifs
  · exact hs
  · exact invT_updateTransform s i true hn

/-- updateActiveSlide lands in the slide index range. -/
theorem invV2_updateActiveSlide (s : GifMediaCarouselScrollV2.V2State)
    (g : GifMediaCarouselScrollV2.Geometry)
    (hn : 1 ≤ s.slideCount) (hg : g.slideCenters.length = s.slideCount) :
    GifMediaCarouselScrollV2.InvV2 (GifMediaCarouselScrollV2.updateActiveSlide s g) := by
  have h : GifMediaCarouselScrollV2.findActiveSlideIndex g < s.slideCount := by
    rw [← hg]
    exact findActiveSlideIndex_lt g (by omega)
  show (0 : ℤ) ≤ (GifMediaCarouselScrollV2.findActiveSlideIndex g : ℤ) ∧
      (GifMediaCarouselScrollV2.findActiveSlideIndex g : ℤ) ≤ (s.slideCount : ℤ) - 1
  omega

/-- scrollToIndex (v2) preserves the index invariant. -/
theorem invV2_scrollToIndex (s : GifMediaCarouselScrollV2.V2State) (i : ℤ)
    (g : GifMediaCarouselScrollV2.Geometry)
    (hn : 1 ≤ s.slideCount) (hg : g.slideCenters.length = s.slideCount)
    (hs : GifMediaCarouselScrollV2.InvV2 s) :
    GifMediaCarouselScrollV2.InvV2 (GifMediaCarouselScrollV2.scrollToIndex s i g) := by
  unfold GifMediaCarouselScrollV2.scrollToIndex
  simp only
  split_ifs <;>
    first
      | exact hs
      | exact invV2_updateActiveSlide _ g hn hg

/-- updateActiveState (v1) lands in the slide index range when the observed
scroll offset is in the rounding range of valid slides. -/
theorem invV1_updateActiveState (s : GifMediaCarouselScrollV1.V1State) (sl : ℚ)
    (_hn : 1 ≤ s.slideCount) (hw : 0 < s.slideWidth) (hsl : 0 ≤ sl)
    (hub : sl < ((s.slideCount : ℚ) - 1/2) * s.slideWidth) :
    GifMediaCarouselScrollV1.InvV1 (GifMediaCarouselScrollV1.updateActiveState s sl) := by
  have hq : (0 : ℚ) ≤ sl / s.slideWidth := div_nonneg hsl (le_of_lt hw)
  have hdiv : sl / s.slideWidth < (s.slideCount : ℚ) - 1/2 := by
    rw [div_lt_iff₀ hw]
    exact hub
  have hlow : (0 : ℤ) ≤ round (sl / s.slideWidth) := by
    rw [round_eq]
    exact Int.floor_nonneg.mpr (by linarith)
  have hhigh : round (sl / s.slideWidth) < (s.slideCount : ℤ) := by
    rw [round_eq, Int.floor_lt]
    push_cast
    linarith
  show (0 : ℤ) ≤ round (sl / s.slideWidth) ∧
      round (sl / s.slideWidth) ≤ (s.slideCount : ℤ) - 1
  omega

/-- scrollToIndex (v1) preserves the index invariant under the same
observed-scroll condition. -/
theorem invV1_scrollToIndex (s : GifMediaCarouselScrollV1.V1State) (i : ℤ) (sl : ℚ)
    (hn : 1 ≤ s.slideCount) (hw : 0 < s.slideWidth) (hsl : 0 ≤ sl)
    (hub : sl < ((s.slideCount : ℚ) - 1/2) * s.slideWidth)
    (hs : GifMediaCarouselScrollV1.InvV1 s) :
    GifMediaCarouselScrollV1.InvV1 (GifMediaCarouselScrollV1.scrollToIndex s i sl) := by
  unfold GifMediaCarouselScrollV1.scrollToIndex
  split_ifs
  · exact hs
  · exact invV1_updateActiveState _ sl hn hw hsl hub

/-- C3 counterexample: a two-slide v1 carousel with slideWidth 100 satisfies
the invariant, yet one run of updateActiveState with observed scrollLeft 152
(reachable when the track viewport is narrower than one slide) sets
currentIndex to round(1.52) = 2, outside 0..1. -/
theorem c3_counterexample :
    GifMediaCarouselScrollV1.InvV1 ⟨2, 100, 0, 0⟩ ∧
      ¬ GifMediaCarouselScrollV1.InvV1
          (GifMediaCarouselScrollV1.updateActiveState ⟨2, 100, 0, 0⟩ 152) := by
  constructor
  · exact ⟨by norm_num, by norm_num⟩
  · intro h
    have h2 := h.2
    have hval : (GifMediaCarouselScrollV1.updateActiveState ⟨2, 100, 0, 0⟩ 152).currentIndex
        = 2 := by
      show round ((152 : ℚ) / 100) = 2
      rw [round_eq]
      norm_num
    have hsc : (GifMediaCarouselScrollV1.updateActiveState ⟨2, 100, 0, 0⟩ 152).slideCount
        = 2 := rfl
    rw [hval, hsc] at h2
    norm_num at h2

/-- C3 (amended): the invariant 0 ≤ currentIndex ≤ slideCount - 1 is
preserved by updateTransform, goToSlide, goToPrev, goToNext, autoplayTick and
handleTransitionEnd of the transform-based variant and by scrollToIndex,
scrollToPrev, scrollToNext and the scroll handler of the scroll-based v2
variant; the v1 operations, which recompute the index as the unclamped
round(scrollLeft / slideWidth), preserve it exactly when the observed scroll
offset lies in [0, (slideCount - 1/2) * slideWidth). -/
theorem c3_index_invariant :
    (∀ (s : GifMediaCarouselTransform.TState) (i : ℤ) (a : Bool),
      1 ≤ s.realSlideCount →
      GifMediaCarouselTransform.InvT (GifMediaCarouselTransform.updateTransform s i a)) ∧
    (∀ s : GifMediaCarouselTransform.TState, 1 ≤ s.realSlideCount →
      GifMediaCarouselTransform.InvT s →
      (∀ i, GifMediaCarouselTransform.InvT (GifMediaCarouselTransform.goToSlide s i)) ∧
      GifMediaCarouselTransform.InvT (GifMediaCarouselTransform.goToPrev s) ∧
      GifMediaCarouselTransform.InvT (GifMediaCarouselTransform.goToNext s) ∧
      GifMediaCarouselTransform.InvT (GifMediaCarouselTransform.autoplayTick s) ∧
      GifMediaCarouselTransform.InvT (GifMediaCarouselTransform.handleTransitionEnd s)) ∧
    (∀ (s : GifMediaCarouselScrollV2.V2State) (g : GifMediaCarouselScrollV2.Geometry)
        (i : ℤ), 1 ≤ s.slideCount → g.slideCenters.length = s.slideCount →
      GifMediaCarouselScrollV2.InvV2 s →
      GifMediaCarouselScrollV2.InvV2 (GifMediaCarouselScrollV2.scrollToIndex s i g) ∧
      GifMediaCarouselScrollV2.InvV2 (GifMediaCarouselScrollV2.scrollToPrev s g) ∧
      GifMediaCarouselScrollV2.InvV2 (GifMediaCarouselScrollV2.scrollToNext s g) ∧
      GifMediaCarouselScrollV2.InvV2 (GifMediaCarouselScrollV2.handleScroll s g) ∧
      GifMediaCarouselScrollV2.InvV2 (GifMediaCarouselScrollV2.updateActiveSlide s g)) ∧
    (∀ (s : GifMediaCarouselScrollV1.V1State) (i : ℤ) (sl : ℚ),
      1 ≤ s.slideCount → 0 < s.slideWidth →
      GifMediaCarouselScrollV1.InvV1 s → 0 ≤ sl →
      sl < ((s.slideCount : ℚ) - 1/2) * s.slideWidth →
      GifMediaCarouselScrollV1.InvV1 (GifMediaCarouselScrollV1.updateActiveState s sl) ∧
      GifMediaCarouselScrollV1.InvV1 (GifMediaCarouselScrollV1.scrollToIndex s i sl) ∧
      GifMediaCarouselScrollV1.InvV1 (GifMediaCarouselScrollV1.scrollToPrev s sl) ∧
      GifMediaCarouselScrollV1.InvV1 (GifMediaCarouselScrollV1.scrollToNext s sl) ∧
      GifMediaCarouselScrollV1.InvV1 (GifMediaCarouselScrollV1.autoplayTick s sl)) := by
  refine ⟨?_, ?_, ?_, ?_⟩
  · exact fun s i a hn => invT_updateTransform s i a hn
  · intro s hn hs
    refine ⟨fun i => invT_goToSlide s i hn hs, ?_, ?_, ?_, invT_handleTransitionEnd s hn hs⟩
    · unfold GifMediaCarouselTransform.goToPrev
      split_ifs
      · exact hs
      · exact invT_goToSlide s _ hn hs
    · unfold GifMediaCarouselTransform.goToNext
      split_ifs
      · exact hs
      · exact invT_goToSlide s _ hn hs
    · unfold GifMediaCarouselTransform.autoplayTick GifMediaCarouselTransform.goToNext
      split_ifs <;> first | exact hs | exact invT_goToSlide s _ hn hs
  · intro s g i hn hg hs
    refine ⟨invV2_scrollToIndex s i g hn hg hs, ?_, ?_, ?_, ?_⟩
    · unfold GifMediaCarouselScrollV2.scrollToPrev
      split_ifs <;> exact invV2_scrollToIndex s _ g hn hg hs
    · unfold GifMediaCarouselScrollV2.scrollToNext
      split_ifs <;> exact invV2_scrollToIndex s _ g hn hg hs
    · unfold GifMediaCarouselScrollV2.handleScroll
      split_ifs
      · exact hs
      · exact invV2_updateActiveSlide s g hn hg
    · exact invV2_updateActiveSlide s g hn hg
  · intro s i sl hn hw hs hsl hub
    refine ⟨invV1_updateActiveState s sl hn hw hsl hub,
      invV1_scrollToIndex s i sl hn hw hsl hub hs, ?_, ?_, ?_⟩
    · exact invV1_scrollToIndex s _ sl hn hw hsl hub hs
    · exact invV1_scrollToIndex s _ sl hn hw hsl hub hs
    · unfold GifMediaCarouselScrollV1.autoplayTick
      split_ifs
      · exact invV1_scrollToIndex s 0 sl hn hw hsl hub hs
      · exact invV1_scrollToIndex s _ sl hn hw hsl hub hs

/-- C3 witness: concrete states for all four parts. -/
theorem c3_witness :
    GifMediaCarouselTransform.InvT
        (GifMediaCarouselTransform.updateTransform
          ⟨true, 3, 2, 100, 0, 200, false, true⟩ 7 true) ∧
      GifMediaCarouselTransform.InvT
        (GifMediaCarouselTransform.goToNext ⟨true, 3, 2, 100, 0, 200, false, true⟩) ∧
      GifMediaCarouselScrollV2.InvV2
        (GifMediaCarouselScrollV2.scrollToNext
          ⟨true, 3, 100, 0, 0, false⟩ ⟨[0, 100, 200], 100⟩) ∧
      GifMediaCarouselScrollV1.InvV1
        (GifMediaCarouselScrollV1.scrollToNext ⟨3, 100, 0, 0⟩ 100) := by
  refine ⟨c3_index_invariant.1 _ 7 true (by norm_num),
    ((c3_index_invariant.2.1 _ (by norm_num) ⟨by norm_num, by norm_num⟩).2.2).1,
    ?_, ?_⟩
  · exact ((c3_index_invariant.2.2.1 _ ⟨[0, 100, 200], 100⟩ 0 (by norm_num) (by norm_num)
      ⟨by norm_num, by norm_num⟩).2.2).1
  · exact ((c3_index_invariant.2.2.2 _ 0 100 (by norm_num) (by norm_num)
      ⟨by norm_num, by norm_num⟩ (by norm_num) (by norm_num)).2.2).2.1

/-! ## C5: autoplay ticks -/

/-- In loop mode goToNext advances by one and wraps at the last slide. -/
theorem goToNext_loop_currentIndex (s : GifMediaCarouselTransform.TState)
    (hloop : s.loopEnabled = true) (hT : s.isTransitioning = false)
    (hinv : GifMediaCarouselTransform.InvT s) :
    (GifMediaCarouselTransform.goToNext s).currentIndex =
      if s.currentIndex = (s.realSlideCount : ℤ) - 1 then 0 else s.currentIndex + 1 := by
  obtain ⟨h0, h1⟩ := hinv
  unfold GifMediaCarouselTransform.goToNext GifMediaCarouselTransform.goToSlide
    GifMediaCarouselTransform.updateTransform
  simp only [hT, hloop]
  norm_num
  split_ifs <;> omega

/-- In loop mode goToPrev steps back by one and wraps at the first slide. -/
theorem goToPrev_loop_currentIndex (s : GifMediaCarouselTransform.TState)
    (hloop : s.loopEnabled = true) (hT : s.isTransitioning = false)
    (hinv : GifMediaCarouselTransform.InvT s) :
    (GifMediaCarouselTransform.goToPrev s).currentIndex =
      if s.currentIndex = 0 then (s.realSlideCount : ℤ) - 1 else s.currentIndex - 1 := by
  obtain ⟨h0, h1⟩ := hinv
  unfold GifMediaCarouselTransform.goToPrev GifMediaCarouselTransform.goToSlide
    GifMediaCarouselTransform.updateTransform
  simp only [hT, hloop]
  norm_num
  split_ifs <;> omega

/-- In non-loop mode goToNext clamps at the last slide. -/
theorem goToNext_noloop_currentIndex (s : GifMediaCarouselTransform.TState)
    (hloop : s.loopEnabled = false) (hT : s.isTransitioning = false)
    (hinv : GifMediaCarouselTransform.InvT s) :
    (GifMediaCarouselTransform.goToNext s).currentIndex =
      min ((s.realSlideCount : ℤ) - 1) (s.currentIndex + 1) := by
  obtain ⟨h0, h1⟩ := hinv
  unfold GifMediaCarouselTransform.goToNext GifMediaCarouselTransform.goToSlide
    GifMediaCarouselTransform.updateTransform
  simp only [hT, hloop]
  norm_num
  omega

/-- Reassigning the current index in loop mode keeps it. -/
theorem updateTransform_self_loop_currentIndex (s : GifMediaCarouselTransform.TState)
    (hloop : s.loopEnabled = true) (hinv : GifMediaCarouselTransform.InvT s) :
    (GifMediaCarouselTransform.updateTransform s s.currentIndex true).currentIndex =
      s.currentIndex := by
  obtain ⟨h0, h1⟩ := hinv
  unfold GifMediaCarouselTransform.updateTransform
  simp only [hloop]
  norm_num
  split_ifs <;> omega

/-- scrollToIndex (v2) always stores the geometry-derived active index when it
does not bail out. -/
theorem scrollToIndexV2_currentIndex (s : GifMediaCarouselScrollV2.V2State) (i : ℤ)
    (g : GifMediaCarouselScrollV2.Geometry) (hn : s.slideCount ≠ 0)
    (hin : s.loopEnabled = true ∨ (0 ≤ i ∧ i < (s.slideCount : ℤ))) :
    (GifMediaCarouselScrollV2.scrollToIndex s i g).currentIndex =
      (GifMediaCarouselScrollV2.findActiveSlideIndex g : ℤ) := by
  unfold GifMediaCarouselScrollV2.scrollToIndex GifMediaCarouselScrollV2.updateActiveSlide
  simp only
  rw [if_neg hn]
  by_cases hl : s.loopEnabled = true
  · rw [if_pos hl]
  · rw [if_neg hl]
    rcases hin with h | ⟨ha, hb⟩
    · exact absurd h hl
    · rw [if_neg (by omega : ¬(i < 0 ∨ i ≥ (s.slideCount : ℤ)))]

/-- C5 counterexample: a transform-based carousel with autoplay, loop
disabled, three slides and currentIndex 2 (the last slide): the autoplay tick
leaves the index at 2 instead of wrapping it to 0. -/
theorem c5_counterexample :
    (GifMediaCarouselTransform.autoplayTick
        ⟨false, 3, 0, 100, 2, 200, false, true⟩).currentIndex = 2 ∧
      (GifMediaCarouselTransform.autoplayTick
        ⟨false, 3, 0, 100, 2, 200, false, true⟩).currentIndex ≠ 0 ∧
      ((⟨false, 3, 0, 100, 2, 200, false, true⟩ :
          GifMediaCarouselTransform.TState).currentIndex =
        ((⟨false, 3, 0, 100, 2, 200, false, true⟩ :
          GifMediaCarouselTransform.TState).realSlideCount : ℤ) - 1) := by
  refine ⟨?_, ?_, by decide⟩
  · show (GifMediaCarouselTransform.goToNext
        ⟨false, 3, 0, 100, 2, 200, false, true⟩).currentIndex = 2
    rw [goToNext_noloop_currentIndex _ rfl rfl ⟨by decide, by decide⟩]
    decide
  · show (GifMediaCarouselTransform.goToNext
        ⟨false, 3, 0, 100, 2, 200, false, true⟩).currentIndex ≠ 0
    rw [goToNext_noloop_currentIndex _ rfl rfl ⟨by decide, by decide⟩]
    decide

/-- C5 (amended): the scroll-based v1 autoplay tick always advances by one and
wraps from the last slide to 0 (once the issued scroll settles); the v2 and
transform-based ticks advance by one and wrap only when loop is enabled, and
with loop disabled they clamp at the last slide instead of wrapping. -/
theorem c5_autoplay :
    (∀ s : GifMediaCarouselScrollV1.V1State, 1 ≤ s.slideCount → 0 < s.slideWidth →
      s.currentIndex = (s.slideCount : ℤ) - 1 →
      (GifMediaCarouselScrollV1.autoplayTick s 0).currentIndex = 0) ∧
    (∀ s : GifMediaCarouselScrollV1.V1State, 1 ≤ s.slideCount → 0 < s.slideWidth →
      0 ≤ s.currentIndex → s.currentIndex < (s.slideCount : ℤ) - 1 →
      (GifMediaCarouselScrollV1.autoplayTick s
          (s.slideWidth * ((s.currentIndex + 1 : ℤ) : ℚ))).currentIndex =
        s.currentIndex + 1) ∧
    (∀ (s : GifMediaCarouselScrollV2.V2State) (g : GifMediaCarouselScrollV2.Geometry),
      s.loopEnabled = true → 1 ≤ s.slideCount →
      (GifMediaCarouselScrollV2.findActiveSlideIndex g : ℤ) =
        (if s.currentIndex = (s.slideCount : ℤ) - 1 then 0 else s.currentIndex + 1) →
      GifMediaCarouselScrollV2.InvV2 s →
      (GifMediaCarouselScrollV2.autoplayTick s g).currentIndex =
        (if s.currentIndex = (s.slideCount : ℤ) - 1 then 0 else s.currentIndex + 1)) ∧
    (∀ (s : GifMediaCarouselScrollV2.V2State) (g : GifMediaCarouselScrollV2.Geometry),
      s.loopEnabled = false → 1 ≤ s.slideCount →
      (GifMediaCarouselScrollV2.findActiveSlideIndex g : ℤ) =
        min ((s.slideCount : ℤ) - 1) (s.currentIndex + 1) →
      GifMediaCarouselScrollV2.InvV2 s →
      (GifMediaCarouselScrollV2.autoplayTick s g).currentIndex =
        min ((s.slideCount : ℤ) - 1) (s.currentIndex + 1)) ∧
    (∀ s : GifMediaCarouselTransform.TState, s.loopEnabled = true →
      s.isTransitioning = false → GifMediaCarouselTransform.InvT s →
      (GifMediaCarouselTransform.autoplayTick s).currentIndex =
        (if s.currentIndex = (s.realSlideCount : ℤ) - 1 then 0 else s.currentIndex + 1)) ∧
    (∀ s : GifMediaCarouselTransform.TState, s.loopEnabled = false →
      s.isTransitioning = false → GifMediaCarouselTransform.InvT s →
      (GifMediaCarouselTransform.autoplayTick s).currentIndex =
        min ((s.realSlideCount : ℤ) - 1) (s.currentIndex + 1)) := by
  refine ⟨?_, ?_, ?_, ?_, ?_, ?_⟩
  · intro s hn hw hi
    unfold GifMediaCarouselScrollV1.autoplayTick
    rw [if_pos (by omega : s.currentIndex ≥ (s.slideCount : ℤ) - 1)]
    unfold GifMediaCarouselScrollV1.scrollToIndex
    rw [if_neg (by omega : ¬((0 : ℤ) < 0 ∨ (0 : ℤ) ≥ (s.slideCount : ℤ)))]
    show round ((0 : ℚ) / s.slideWidth) = 0
    rw [zero_div, round_zero]
  · intro s hn hw h0 hi
    unfold GifMediaCarouselScrollV1.autoplayTick
    rw [if_neg (by omega : ¬(s.currentIndex ≥ (s.slideCount : ℤ) - 1))]
    unfold GifMediaCarouselScrollV1.scrollToNext
    rw [min_eq_right (by omega : s.currentIndex + 1 ≤ (s.slideCount : ℤ) - 1)]
    unfold GifMediaCarouselScrollV1.scrollToIndex
    rw [if_neg (by omega :
      ¬(s.currentIndex + 1 < 0 ∨ s.currentIndex + 1 ≥ (s.slideCount : ℤ)))]
    show round (s.slideWidth * ((s.currentIndex + 1 : ℤ) : ℚ) / s.slideWidth) =
      s.currentIndex + 1
    rw [mul_div_cancel_left₀ _ (ne_of_gt hw), round_intCast]
  · intro s g hloop hn hg hinv
    unfold GifMediaCarouselScrollV2.autoplayTick GifMediaCarouselScrollV2.scrollToNext
    rw [if_pos hloop]
    rw [scrollToIndexV2_currentIndex s _ g (by omega) (Or.inl hloop)]
    exact hg
  · intro s g hloop hn hg hinv
    obtain ⟨h0, h1⟩ := hinv
    unfold GifMediaCarouselScrollV2.autoplayTick GifMediaCarouselScrollV2.scrollToNext
    rw [if_neg (by simp [hloop])]
    rw [scrollToIndexV2_currentIndex s _ g (by omega) (Or.inr ⟨by omega, by omega⟩)]
    exact hg
  · intro s hloop hT hinv
    unfold GifMediaCarouselTransform.autoplayTick
    rw [if_pos (by simp [hT])]
    exact goToNext_loop_currentIndex s hloop hT hinv
  · intro s hloop hT hinv
    unfold GifMediaCarouselTransform.autoplayTick
    rw [if_pos (by simp [hT])]
    exact goToNext_noloop_currentIndex s hloop hT hinv

/-- C5 witness: concrete states for all six parts. -/
theorem c5_witness :
    (GifMediaCarouselScrollV1.autoplayTick ⟨3, 100, 2, 200⟩ 0).currentIndex = 0 ∧
      (GifMediaCarouselScrollV1.autoplayTick ⟨3, 100, 0, 0⟩
        ((100 : ℚ) * ((0 + 1 : ℤ) : ℚ))).currentIndex = 0 + 1 ∧
      (GifMediaCarouselScrollV2.autoplayTick ⟨true, 3, 100, 2, 200, false⟩
        ⟨[0, 100, 200], 0⟩).currentIndex = 0 ∧
      (GifMediaCarouselScrollV2.autoplayTick ⟨false, 3, 100, 2, 200, false⟩
        ⟨[0, 100, 200], 200⟩).currentIndex = 2 ∧
      (GifMediaCarouselTransform.autoplayTick
        ⟨true, 3, 0, 100, 2, 400, false, true⟩).currentIndex = 0 ∧
      (GifMediaCarouselTransform.autoplayTick
        ⟨false, 3, 0, 100, 2, 200, false, true⟩).currentIndex = 2 := by
  refine ⟨?_, ?_, ?_, ?_, ?_, ?_⟩
  · exact c5_autoplay.1 ⟨3, 100, 2, 200⟩ (by norm_num) (by norm_num) (by decide)
  · exact c5_autoplay.2.1 ⟨3, 100, 0, 0⟩ (by norm_num) (by norm_num) (by decide) (by decide)
  · have hfa : (GifMediaCarouselScrollV2.findActiveSlideIndex ⟨[0, 100, 200], 0⟩ : ℤ) = 0 := by
      norm_num [GifMediaCarouselScrollV2.findActiveSlideIndex, GifMediaCarouselScrollV2.findFrom]
    have h := c5_autoplay.2.2.1 ⟨true, 3, 100, 2, 200, false⟩ ⟨[0, 100, 200], 0⟩ rfl
      (by norm_num) (by rw [hfa]; decide) ⟨by decide, by decide⟩
    rw [h]
    decide
  · have hfa : (GifMediaCarouselScrollV2.findActiveSlideIndex ⟨[0, 100, 200], 200⟩ : ℤ) = 2 := by
      norm_num [GifMediaCarouselScrollV2.findActiveSlideIndex, GifMediaCarouselScrollV2.findFrom]
    have h := c5_autoplay.2.2.2.1 ⟨false, 3, 100, 2, 200, false⟩ ⟨[0, 100, 200], 200⟩ rfl
      (by norm_num) (by rw [hfa]; decide) ⟨by decide, by decide⟩
    rw [h]
    decide
  · have h := c5_autoplay.2.2.2.2.1 ⟨true, 3, 0, 100, 2, 400, false, true⟩ rfl rfl
      ⟨by decide, by decide⟩
    rw [h]
    decide
  · have h := c5_autoplay.2.2.2.2.2 ⟨false, 3, 0, 100, 2, 200, false, true⟩ rfl rfl
      ⟨by decide, by decide⟩
    rw [h]
    decide

/-! ## C7: the swipe decision of the transform-based carousel -/

/-- C7 counterexample: a rightward gesture with horizontal distance 100,
vertical movement 0 and duration 100 ms satisfies the claimed swipe condition,
yet on a non-loop carousel sitting at the first slide the triggered goToPrev
clamps and the slide does not change. -/
theorem c7_counterexample :
    (|(5 : ℚ) - 5| < 30 ∧ (|(100 : ℚ) - 0| > 50 ∨
        |(100 : ℚ) - 0| / max ((100 : ℚ) - 0) 1 > 3/10)) ∧
      (GifMediaCarouselTransform.touchEnd ⟨false, 2, 0, 100, 0, 0, false, true⟩ true
          ⟨0, 5, 0, 100, 5, 100⟩).currentIndex =
        (⟨false, 2, 0, 100, 0, 0, false, true⟩ :
          GifMediaCarouselTransform.TState).currentIndex := by
  constructor
  · norm_num
  · show (GifMediaCarouselTransform.touchEnd ⟨false, 2, 0, 100, 0, 0, false, true⟩ true
        ⟨0, 5, 0, 100, 5, 100⟩).currentIndex = 0
    unfold GifMediaCarouselTransform.touchEnd GifMediaCarouselTransform.goToPrev
      GifMediaCarouselTransform.goToSlide GifMediaCarouselTransform.updateTransform
    norm_num

/-- C7 (amended): in loop mode with at least two slides, a touch gesture
ending on the track triggers a slide change exactly when the vertical
movement is under 30 pixels and either the horizontal distance exceeds 50
pixels or the velocity exceeds 0.3 px/ms; a rightward swipe goes to the
previous slide and a leftward one to the next (wrapping at the ends), and
otherwise the track snaps back to the current slide. In non-loop mode the
triggered navigation clamps at the first and last slide, so a valid swipe at
a boundary leaves the slide unchanged. -/
theorem c7_swipe :
    ∀ (s : GifMediaCarouselTransform.TState) (g : GifMediaCarouselTransform.TouchGesture),
      s.loopEnabled = true → s.isTransitioning = false → 2 ≤ s.realSlideCount →
      GifMediaCarouselTransform.InvT s →
      ((|g.endY - g.startY| < 30 ∧ (|g.endX - g.startX| > 50 ∨
          |g.endX - g.startX| / max (g.endTime - g.startTime) 1 > 3/10)) →
        (g.endX - g.startX > 0 →
          (GifMediaCarouselTransform.touchEnd s true g).currentIndex =
            (if s.currentIndex = 0 then (s.realSlideCount : ℤ) - 1
             else s.currentIndex - 1)) ∧
        (¬(g.endX - g.startX > 0) →
          (GifMediaCarouselTransform.touchEnd s true g).currentIndex =
            (if s.currentIndex = (s.realSlideCount : ℤ) - 1 then 0
             else s.currentIndex + 1)) ∧
        (GifMediaCarouselTransform.touchEnd s true g).currentIndex ≠ s.currentIndex) ∧
      (¬(|g.endY - g.startY| < 30 ∧ (|g.endX - g.startX| > 50 ∨
          |g.endX - g.startX| / max (g.endTime - g.startTime) 1 > 3/10)) →
        (GifMediaCarouselTransform.touchEnd s true g).currentIndex = s.currentIndex) := by
  intro s g hloop hT hn hinv
  have hte : GifMediaCarouselTransform.touchEnd s true g =
      (if |g.endY - g.startY| < 30 ∧ (|g.endX - g.startX| > 50 ∨
          |g.endX - g.startX| / max (g.endTime - g.startTime) 1 > 3/10) then
        (if g.endX - g.startX > 0 then GifMediaCarouselTransform.goToPrev s
         else GifMediaCarouselTransform.goToNext s)
      else GifMediaCarouselTransform.updateTransform s s.currentIndex true) := rfl
  constructor
  · intro hvalid
    refine ⟨?_, ?_, ?_⟩
    · intro hdx
      rw [hte, if_pos hvalid, if_pos hdx]
      exact goToPrev_loop_currentIndex s hloop hT hinv
    · intro hdx
      rw [hte, if_pos hvalid, if_neg hdx]
      exact goToNext_loop_currentIndex s hloop hT hinv
    · obtain ⟨h0, h1⟩ := hinv
      by_cases hdx : g.endX - g.startX > 0
      · rw [hte, if_pos hvalid, if_pos hdx,
          goToPrev_loop_currentIndex s hloop hT ⟨h0, h1⟩]
        split_ifs <;> omega
      · rw [hte, if_pos hvalid, if_neg hdx,
          goToNext_loop_currentIndex s hloop hT ⟨h0, h1⟩]
        split_ifs <;> omega
  · intro hvalid
    rw [hte, if_neg hvalid]
    exact updateTransform_self_loop_currentIndex s hloop hinv

/-- C7 witness: on a three-slide loop carousel at slide 0, a valid rightward
swipe wraps to slide 2, and a gesture with 35 px of vertical movement snaps
back to slide 0. -/
theorem c7_witness :
    (GifMediaCarouselTransform.touchEnd ⟨true, 3, 0, 100, 0, 200, false, true⟩ true
        ⟨0, 5, 0, 100, 5, 100⟩).currentIndex = 2 ∧
      (GifMediaCarouselTransform.touchEnd ⟨true, 3, 0, 100, 0, 200, false, true⟩ true
        ⟨0, 5, 0, 0, 40, 100⟩).currentIndex = 0 := by
  constructor
  · have h := ((c7_swipe ⟨true, 3, 0, 100, 0, 200, false, true⟩ ⟨0, 5, 0, 100, 5, 100⟩
      rfl rfl (by norm_num) ⟨by decide, by decide⟩).1 (by norm_num)).1 (by norm_num)
    rw [h]
    decide
  · have h := (c7_swipe ⟨true, 3, 0, 100, 0, 200, false, true⟩ ⟨0, 5, 0, 0, 40, 100⟩
      rfl rfl (by norm_num) ⟨by decide, by decide⟩).2 (by norm_num)
    rw [h]
